import Mathlib

/-!
Verification of the dmadera0/Portfolio-v2 repository against its design notes.

Shallow embedding of the behaviour-bearing parts of the code base:

* `src/js/main.js` — the hero-canvas particle mesh: the `throttle` helper,
  the color constants and `interpolateColor`, the `Particle` class
  (`reset`, `move`), `buildParticles`, the `drawLines` pair decision, and
  the `frame` / `visibilitychange` loop control.
* `scripts/deploy.sh` — the environment validation that precedes the
  S3 upload.

JavaScript numbers are modelled as exact rationals; every call to
`Math.random()` is passed in explicitly as a value in `[0, 1)`.
-/

namespace Portfolio

/-! ### Colors and interpolation (main.js lines 43-57) -/

/-- An RGB color with integer channels, as produced by `Math.round`. -/
structure Color where
  r : ℤ
  g : ℤ
  b : ℤ
deriving DecidableEq

/-- `const ACCENT = { r: 124, g: 109, b: 250 }` (main.js line 43). -/
def ACCENT : Color := ⟨124, 109, 250⟩

/-- `const CYAN = { r: 34, g: 211, b: 238 }` (main.js line 44). -/
def CYAN : Color := ⟨34, 211, 238⟩

/-- `lerp(a, b, t) = a + (b - a) * t` (main.js line 48). -/
def lerp (a b t : ℚ) : ℚ := a + (b - a) * t

/-- JavaScript `Math.round`: round half toward positive infinity,
i.e. `floor(q + 1/2)`. -/
def jsRound (q : ℚ) : ℤ := ⌊q + 1 / 2⌋

/-- `interpolateColor(t)` (main.js lines 50-57): blend ACCENT toward CYAN,
rounding each channel. -/
def interpolateColor (t : ℚ) : Color :=
  { r := jsRound (lerp (ACCENT.r : ℚ) (CYAN.r : ℚ) t)
    g := jsRound (lerp (ACCENT.g : ℚ) (CYAN.g : ℚ) t)
    b := jsRound (lerp (ACCENT.b : ℚ) (CYAN.b : ℚ) t) }

/-! ### Particle count and the canvas closure (main.js lines 35-46, 100-102) -/

/-- The count formula `Math.min(70, Math.floor(w / 16))` appearing on
main.js line 45. -/
def particleCountFormula (w : ℚ) : ℤ := min 70 ⌊w / 16⌋

/-- The constants captured by the `initCanvas` closure when the script first
runs (main.js lines 35-46).  `PARTICLE_COUNT` is a `const`, evaluated exactly
once from `window.innerWidth` at load time. -/
structure CanvasEnv where
  PARTICLE_COUNT : ℤ
deriving DecidableEq

/-- Script load (main.js line 45): the closure captures
`PARTICLE_COUNT = Math.min(70, Math.floor(window.innerWidth / 16))`
from the viewport width current at that moment. -/
def CanvasEnv.load (startupInnerWidth : ℚ) : CanvasEnv :=
  ⟨particleCountFormula startupInnerWidth⟩

/-- `buildParticles()` (main.js lines 100-102): the rebuilt array has length
`PARTICLE_COUNT` — the closure constant — whatever the viewport width happens
to be at rebuild time (the second argument is what the resize handler sees
but never consults for the count). -/
def buildParticlesLen (env : CanvasEnv) (_currentInnerWidth : ℚ) : ℤ :=
  env.PARTICLE_COUNT

/-! ### Particles (main.js lines 59-89) -/

/-- The per-particle state mutated by the animation. -/
structure Particle where
  x : ℚ
  y : ℚ
  vx : ℚ
  vy : ℚ
  r : ℚ
  t : ℚ
deriving DecidableEq

/-- `Particle.prototype.reset(initial)` (main.js lines 62-70).  `u` lists the
six `Math.random()` draws in source order (x, y, vx, vy, r, t); the `y`
assignment is the source ternary `initial ? Math.random() * height
: Math.random() * height`, whose two arms coincide. -/
def Particle.reset (width height : ℚ) (u : Fin 6 → ℚ) (initial : Bool) : Particle :=
  { x := u 0 * width
    y := if initial then u 1 * height else u 1 * height
    vx := (u 2 - 0.5) * 0.45
    vy := (u 3 - 0.5) * 0.45
    r := u 4 * 1.8 + 0.8
    t := u 5 }

/-- `new Particle()` (main.js line 60): the constructor calls `this.reset(true)`. -/
def Particle.create (width height : ℚ) (u : Fin 6 → ℚ) : Particle :=
  Particle.reset width height u true

/-- The two sequential wrap checks of `move` applied to one coordinate
(main.js lines 76-77): `if (v < -10) v = size + 10; if (v > size + 10) v = -10;`. -/
def wrapCoord (size v0 : ℚ) : ℚ :=
  let v1 := if v0 < -10 then size + 10 else v0
  if v1 > size + 10 then -10 else v1

/-- `Particle.prototype.move()` (main.js lines 72-80): add the velocity to the
position, then run the wrap checks on each axis. -/
def Particle.move (width height : ℚ) (p : Particle) : Particle :=
  { p with
    x := wrapCoord width (p.x + p.vx)
    y := wrapCoord height (p.y + p.vy) }

/-! ### Connection lines (main.js lines 104-124) -/

/-- `const CONNECT_DIST = 160` (main.js line 46). -/
def CONNECT_DIST : ℚ := 160

/-- The per-pair decision in `drawLines` (main.js line 111): with `dist` the
Euclidean distance `Math.sqrt(dx*dx + dy*dy)` between the two particles, a
line is drawn exactly when `dist < CONNECT_DIST`. -/
def lineDrawn (dist : ℚ) : Bool := dist < CONNECT_DIST

/-- The stroke alpha of a drawn line (main.js line 112):
`(1 - dist / CONNECT_DIST) * 0.18`. -/
def lineAlpha (dist : ℚ) : ℚ := (1 - dist / CONNECT_DIST) * 0.18

/-! ### Throttle (main.js lines 23-32) -/

/-- `throttle(fn, limit)` (main.js lines 23-32): `last` starts at 0; an
incoming call at time `now` runs `fn` exactly when `now - last >= limit`, and
then sets `last := now`; otherwise the call is dropped.  `throttleRun limit
last ts` returns the times at which `fn` actually ran, given the times `ts`
of the incoming events. -/
def throttleRun (limit : ℤ) : ℤ → List ℤ → List ℤ
  | _, [] => []
  | last, now :: ts =>
    if limit ≤ now - last then now :: throttleRun limit now ts
    else throttleRun limit last ts

/-! ### Frame loop and visibility gating (main.js lines 126-140) -/

/-- The loop-control state of the canvas: whether an uncancelled
`requestAnimationFrame` request is outstanding, whether the page is hidden,
and counters for the draw passes performed and the frame requests issued. -/
structure LoopState where
  pending : Bool
  hidden : Bool
  draws : ℕ
  reqs : ℕ
deriving DecidableEq

/-- The events that drive the loop: a display-frame callback firing, and the
two visibilitychange outcomes. -/
inductive PageEvent
  | frameFire
  | becomeHidden
  | becomeVisible
deriving DecidableEq

/-- One step of the loop (main.js lines 126-140).  A frame callback fires
only when an uncancelled request is pending; `frame()` then performs one draw
pass and requests the next frame.  Hiding the page runs
`cancelAnimationFrame(animId)`, cancelling the pending request.  Becoming
visible runs `animId = requestAnimationFrame(frame)`, issuing one new
request. -/
def loopStep (s : LoopState) : PageEvent → LoopState
  | .frameFire =>
      if s.pending then { s with draws := s.draws + 1, reqs := s.reqs + 1 } else s
  | .becomeHidden => { s with hidden := true, pending := false }
  | .becomeVisible => { s with hidden := false, pending := true, reqs := s.reqs + 1 }

/-! ### deploy.sh validation (scripts/deploy.sh lines 17-104) -/

/-- The environment a run of `scripts/deploy.sh` observes: whether `.env`
exists, the three configuration values (`none` = unset), and the state of
`dist/` at the emptiness check (after the optional build step). -/
structure DeployEnv where
  envFileExists : Bool
  s3Bucket : Option String
  awsRegion : Option String
  cfDistributionId : Option String
  distExists : Bool
  distNonempty : Bool
deriving DecidableEq

/-- Outcome of a deploy run: aborted with a message before the upload
(a non-zero `exit`), or the S3 sync and CloudFront invalidation performed. -/
inductive DeployResult
  | aborted (msg : String)
  | uploaded
deriving DecidableEq

/-- Bash `${VAR:?}` succeeds only when the variable is set and non-empty. -/
def isSet : Option String → Bool
  | none => false
  | some s => !s.isEmpty

/-- The control flow of `scripts/deploy.sh` (lines 17-104): under
`set -euo pipefail`, the missing-`.env` check (lines 24-28) exits 1, each
`: "${...:?}"` expansion (lines 34-36) exits non-zero when the variable is
unset or empty, and the `dist/` existence/emptiness check (lines 60-63)
exits 1 — all before any `aws s3 sync` runs. -/
def deploy (e : DeployEnv) : DeployResult :=
  if !e.envFileExists then
    DeployResult.aborted ".env file not found"
  else if !(isSet e.s3Bucket) then
    DeployResult.aborted "S3_BUCKET is not set in .env"
  else if !(isSet e.awsRegion) then
    DeployResult.aborted "AWS_REGION is not set in .env"
  else if !(isSet e.cfDistributionId) then
    DeployResult.aborted "CLOUDFRONT_DISTRIBUTION_ID is not set in .env"
  else if !(e.distExists && e.distNonempty) then
    DeployResult.aborted "dist is empty. Run build.sh first or drop --skip-build."
  else
    DeployResult.uploaded

/-! ## Helper lemmas -/

/-- A factor in `[0,1)` scales a nonnegative number into `[0, that number]`. -/
lemma unit_mul_mem (w c : ℚ) (hw : 0 ≤ w) (h0 : 0 ≤ c) (h1 : c < 1) :
    0 ≤ c * w ∧ c * w ≤ w :=
  ⟨mul_nonneg h0 hw, mul_le_of_le_one_left hw (le_of_lt h1)⟩

/-- After the two wrap checks, a coordinate lies in the closed interval
`[-10, size + 10]`, from any starting value. -/
lemma wrapCoord_mem (size v0 : ℚ) (hs : -20 ≤ size) :
    -10 ≤ wrapCoord size v0 ∧ wrapCoord size v0 ≤ size + 10 := by
  simp only [wrapCoord]
  split_ifs <;> constructor <;> linarith

/-- A single `move` lands inside the closed wrap box, from any position. -/
lemma move_mem (width height : ℚ) (hw : -20 ≤ width) (hh : -20 ≤ height)
    (p : Particle) :
    -10 ≤ (Particle.move width height p).x ∧
    (Particle.move width height p).x ≤ width + 10 ∧
    -10 ≤ (Particle.move width height p).y ∧
    (Particle.move width height p).y ≤ height + 10 := by
  have hx := wrapCoord_mem width (p.x + p.vx) hw
  have hy := wrapCoord_mem height (p.y + p.vy) hh
  exact ⟨hx.1, hx.2, hy.1, hy.2⟩

/-- When neither wrap check fires on either axis, `move` is a pure drift. -/
lemma move_no_wrap (w h : ℚ) (p : Particle)
    (hx1 : ¬ p.x + p.vx < -10) (hx2 : ¬ p.x + p.vx > w + 10)
    (hy1 : ¬ p.y + p.vy < -10) (hy2 : ¬ p.y + p.vy > h + 10) :
    Particle.move w h p = { p with x := p.x + p.vx, y := p.y + p.vy } := by
  simp [Particle.move, wrapCoord, hx1, hx2, hy1, hy2]

/-- As long as no wrap check fires, `n` move steps drift the position by
`n` times the velocity. -/
lemma iterate_move_drift (w h : ℚ) (n : ℕ) (p : Particle)
    (hcond : ∀ k : ℕ, k < n →
      (¬ p.x + (k + 1) * p.vx < -10) ∧ (¬ p.x + (k + 1) * p.vx > w + 10) ∧
      (¬ p.y + (k + 1) * p.vy < -10) ∧ (¬ p.y + (k + 1) * p.vy > h + 10)) :
    (Particle.move w h)^[n] p =
      { p with x := p.x + n * p.vx, y := p.y + n * p.vy } := by
  induction n with
  | zero => simp
  | succ m ih =>
    rw [Function.iterate_succ_apply', ih (fun k hk => hcond k (by omega))]
    obtain ⟨h1, h2, h3, h4⟩ := hcond m (by omega)
    rw [move_no_wrap]
    · congr 1 <;> push_cast <;> ring
    · show ¬ (p.x + m * p.vx) + p.vx < -10
      intro hc; apply h1; linarith
    · show ¬ (p.x + m * p.vx) + p.vx > w + 10
      intro hc; apply h2; linarith
    · show ¬ (p.y + m * p.vy) + p.vy < -10
      intro hc; apply h3; linarith
    · show ¬ (p.y + m * p.vy) + p.vy > h + 10
      intro hc; apply h4; linarith

/-! ## Claims -/

/-- C1 counterexample: load the script at viewport width 320 (so the
`PARTICLE_COUNT` const is 20); after a resize to width 2000, the rebuild
still produces 20 particles — not `min(70, floor(2000/16)) = 70` as the
claim requires of "the viewport width current at the time of each
rebuild". -/
theorem C1_counterexample :
    ¬ (buildParticlesLen (CanvasEnv.load 320) 2000 = particleCountFormula 2000) := by
  norm_num [buildParticlesLen, CanvasEnv.load, particleCountFormula]

/-- C1 (amended): for every startup width `W0 ≥ 0` and every later rebuild,
the particle count equals `min(70, floor(W0/16))` — the formula applied to
the width at script-load time, never re-derived — and is always
nonnegative. -/
theorem C1_count (w0 w : ℚ) (h : 0 ≤ w0) :
    buildParticlesLen (CanvasEnv.load w0) w = particleCountFormula w0 ∧
    0 ≤ buildParticlesLen (CanvasEnv.load w0) w := by
  refine ⟨rfl, ?_⟩
  show (0:ℤ) ≤ min 70 ⌊w0 / 16⌋
  exact le_min (by norm_num) (Int.floor_nonneg.mpr (div_nonneg h (by norm_num)))

/-- C1 witness: the amended statement at startup width 320, rebuild width
2000. -/
theorem C1_count_witness :
    (0:ℚ) ≤ 320 ∧ buildParticlesLen (CanvasEnv.load 320) 2000 = particleCountFormula 320 :=
  ⟨by norm_num, (C1_count 320 2000 (by norm_num)).1⟩

/-- C2 counterexample: a particle created (all six random draws 0, so
x = 0, vx = -0.225) in a 100 × 100 viewport reaches x = -10.125 on move
step 45; the wrap sets x to `width + 10 = 110` exactly, so the claimed
half-open bound `x < width + 10` is violated. -/
theorem C2_counterexample :
    ¬ ((Particle.move 100 100)^[45]
        (Particle.create 100 100 (fun _ => 0))).x < 100 + 10 := by
  have hp : Particle.create 100 100 (fun _ => 0) =
      ⟨0, 0, -(9/40), -(9/40), 0.8, 0⟩ := by
    simp only [Particle.create, Particle.reset]
    norm_num
  rw [show (45:ℕ) = 44 + 1 from rfl, Function.iterate_succ_apply', hp,
    iterate_move_drift]
  · norm_num [Particle.move, wrapCoord]
  · intro k hk
    have hk44 : (k:ℚ) ≤ 43 := by exact_mod_cast Nat.le_of_lt_succ hk
    have hk0 : (0:ℚ) ≤ (k:ℚ) := Nat.cast_nonneg k
    norm_num
    refine ⟨?_, ?_, ?_, ?_⟩ <;> nlinarith

/-- C2 (amended): after any number of move steps following its creation, a
particle position satisfies the closed bounds `x ∈ [-10, width + 10]` and
`y ∈ [-10, height + 10]` (the wrap can land exactly on `width + 10` or
`height + 10`, so the closed box — the invariant as stated in the data-model
section — is what holds, not the half-open one). -/
theorem C2_bounds (width height : ℚ) (hw : 0 ≤ width) (hh : 0 ≤ height)
    (u : Fin 6 → ℚ) (hu : ∀ i, 0 ≤ u i ∧ u i < 1) (initial : Bool) (n : ℕ) :
    -10 ≤ ((Particle.move width height)^[n] (Particle.reset width height u initial)).x ∧
    ((Particle.move width height)^[n] (Particle.reset width height u initial)).x ≤ width + 10 ∧
    -10 ≤ ((Particle.move width height)^[n] (Particle.reset width height u initial)).y ∧
    ((Particle.move width height)^[n] (Particle.reset width height u initial)).y ≤ height + 10 := by
  cases n with
  | zero =>
    simp only [Function.iterate_zero, id_eq, Particle.reset, ite_self]
    have hx := unit_mul_mem width (u 0) hw (hu 0).1 (hu 0).2
    have hy := unit_mul_mem height (u 1) hh (hu 1).1 (hu 1).2
    exact ⟨by linarith [hx.1], by linarith [hx.2], by linarith [hy.1], by linarith [hy.2]⟩
  | succ m =>
    rw [Function.iterate_succ_apply']
    exact move_mem width height (by linarith) (by linarith) _

/-- C2 witness: the amended bounds at width = height = 100, draws all 1/2,
after 3 move steps. -/
theorem C2_bounds_witness :
    (0:ℚ) ≤ 100 ∧
    -10 ≤ ((Particle.move 100 100)^[3]
      (Particle.reset 100 100 (fun _ => 1/2) true)).x :=
  ⟨by norm_num,
    (C2_bounds 100 100 (by norm_num) (by norm_num) (fun _ => 1/2)
      (fun _ => by norm_num) true 3).1⟩

/-- `jsRound` is monotone. -/
lemma jsRound_le_jsRound {a b : ℚ} (h : a ≤ b) : jsRound a ≤ jsRound b :=
  Int.floor_le_floor (by linarith)

/-- C3: a connecting line is drawn iff the distance is below 160; when drawn
its alpha is `(1 - d/160) * 0.18`, which is strictly decreasing in the
distance, equals 0.09 at distance 80, and reaches 0 at distance 160 (so no
line is drawn at distance 160 or more, and the alpha of drawn lines
vanishes as the distance approaches 160). -/
theorem C3_lines (d : ℚ) :
    (lineDrawn d = true ↔ d < 160) ∧
    lineAlpha d = (1 - d / 160) * 0.18 ∧
    (∀ e, d < e → lineAlpha e < lineAlpha d) ∧
    lineAlpha 80 = 0.09 ∧
    lineAlpha 160 = 0 := by
  refine ⟨?_, rfl, ?_, by norm_num [lineAlpha, CONNECT_DIST],
    by norm_num [lineAlpha, CONNECT_DIST]⟩
  · simp [lineDrawn, CONNECT_DIST]
  · intro e he
    have hkey : lineAlpha d - lineAlpha e = (e - d) * (9 / 8000) := by
      simp only [lineAlpha, CONNECT_DIST]
      ring
    nlinarith [hkey]

/-- C3 witness: at distance 80 a line is drawn with alpha 0.09; at distance
200 no line is drawn. -/
theorem C3_lines_witness :
    lineDrawn 80 = true ∧ lineAlpha 80 = 0.09 ∧ lineDrawn 200 = false := by
  refine ⟨(C3_lines 80).1.mpr (by norm_num), (C3_lines 80).2.2.2.1, ?_⟩
  have h := (C3_lines 200).1
  simp only [show ¬ ((200:ℚ) < 160) by norm_num, iff_false] at h
  simp [h]

/-- C4: each channel of `interpolateColor t` equals
`round(accentChannel + (cyanChannel - accentChannel) * t)`; on `[0,1]` each
channel is monotone in `t` (r and b decrease from ACCENT toward CYAN, g
increases), and the interpolated color is exactly ACCENT at `t = 0` and
exactly CYAN at `t = 1`. -/
theorem C4_interpolate (t : ℚ) (h0 : 0 ≤ t) (h1 : t ≤ 1) :
    (interpolateColor t).r = jsRound ((ACCENT.r : ℚ) + ((CYAN.r : ℚ) - (ACCENT.r : ℚ)) * t) ∧
    (interpolateColor t).g = jsRound ((ACCENT.g : ℚ) + ((CYAN.g : ℚ) - (ACCENT.g : ℚ)) * t) ∧
    (interpolateColor t).b = jsRound ((ACCENT.b : ℚ) + ((CYAN.b : ℚ) - (ACCENT.b : ℚ)) * t) ∧
    (∀ s, t ≤ s →
      (interpolateColor s).r ≤ (interpolateColor t).r ∧
      (interpolateColor t).g ≤ (interpolateColor s).g ∧
      (interpolateColor s).b ≤ (interpolateColor t).b) ∧
    interpolateColor 0 = ACCENT ∧
    interpolateColor 1 = CYAN := by
  refine ⟨rfl, rfl, rfl, ?_, ?_, ?_⟩
  · intro s hs
    simp only [interpolateColor]
    refine ⟨jsRound_le_jsRound ?_, jsRound_le_jsRound ?_, jsRound_le_jsRound ?_⟩ <;>
      · simp only [ACCENT, CYAN, lerp]
        push_cast
        linarith
  · simp only [interpolateColor, lerp, jsRound, ACCENT, CYAN]
    norm_num
  · simp only [interpolateColor, lerp, jsRound, ACCENT, CYAN]
    norm_num

/-- C4 witness: the statement applied at t = 1/2 (its endpoint conjunct). -/
theorem C4_interpolate_witness :
    (0:ℚ) ≤ 1/2 ∧ (1:ℚ)/2 ≤ 1 ∧ interpolateColor 0 = ACCENT :=
  ⟨by norm_num, by norm_num,
    (C4_interpolate (1/2) (by norm_num) (by norm_num)).2.2.2.2.1⟩

/-- If the throttled fn fires at the head of a run, it fired at least
`limit` after the previous firing time `last`. -/
lemma throttleRun_head_ge (limit : ℤ) (ts : List ℤ) :
    ∀ last t, (throttleRun limit last ts).head? = some t → last + limit ≤ t := by
  induction ts with
  | nil => intro last t h; simp [throttleRun] at h
  | cons a ts ih =>
    intro last t h
    simp only [throttleRun] at h
    split at h
    · simp only [List.head?_cons, Option.some.injEq] at h
      omega
    · exact ih last t h

/-- Any two consecutive firings of the throttled fn are at least `limit`
apart. -/
lemma throttleRun_spaced (limit : ℤ) (ts : List ℤ) :
    ∀ last, (throttleRun limit last ts).Chain' (fun a b => a + limit ≤ b) := by
  induction ts with
  | nil => intro last; simp [throttleRun]
  | cons a ts ih =>
    intro last
    simp only [throttleRun]
    split
    · rw [List.chain'_cons']
      refine ⟨fun y hy => ?_, ih a⟩
      exact throttleRun_head_ge limit ts a y (by simpa using hy)
    · exact ih last

/-- C5 counterexample: two resize events at times 1000 and 1100 (within
200ms, with the throttle fresh at `last = 0`) produce exactly one rebuild —
but it fires at the first event, strictly before the second: the throttle is
leading-edge, so the single rebuild does not happen after a trailing-edge
window. -/
theorem C5_counterexample :
    throttleRun 200 0 [1000, 1100] = [1000] ∧
    ∀ t ∈ throttleRun 200 0 [1000, 1100], t < 1100 := by
  decide

/-- C5 (amended): two resize events within 200ms of each other (the first at
least 200ms after the throttle initialization time 0) produce exactly one
particle-set rebuild, performed at the FIRST event — a leading-edge
throttle that drops later calls in the window, not a trailing-edge one —
and, in any event sequence, consecutive rebuilds are at least 200ms
apart. -/
theorem C5_throttle (t1 t2 : ℤ) (h1 : 200 ≤ t1) (h12 : t1 ≤ t2) (h2 : t2 < t1 + 200) :
    throttleRun 200 0 [t1, t2] = [t1] ∧
    ∀ (ts : List ℤ) (last : ℤ),
      (throttleRun 200 last ts).Chain' (fun a b => a + 200 ≤ b) := by
  constructor
  · simp only [throttleRun]
    rw [if_pos (by omega), if_neg (by omega)]
  · intro ts last
    exact throttleRun_spaced 200 ts last

/-- C5 witness: the amended statement at event times 1000 and 1150. -/
theorem C5_throttle_witness :
    throttleRun 200 0 [1000, 1150] = [1000] :=
  (C5_throttle 1000 1150 (by norm_num) (by norm_num) (by norm_num)).1

/-- While no becomeVisible event occurs, a loop whose frame request is
cancelled performs no draws and issues no frame requests. -/
lemma loopRun_hidden (evs : List PageEvent)
    (hevs : ∀ e ∈ evs, e ≠ PageEvent.becomeVisible) :
    ∀ s : LoopState, s.pending = false →
      (evs.foldl loopStep s).pending = false ∧
      (evs.foldl loopStep s).draws = s.draws ∧
      (evs.foldl loopStep s).reqs = s.reqs := by
  induction evs with
  | nil => intro s hp; exact ⟨hp, rfl, rfl⟩
  | cons e evs ih =>
    intro s hp
    have hevs' : ∀ x ∈ evs, x ≠ PageEvent.becomeVisible :=
      fun x hx => hevs x (List.mem_cons_of_mem e hx)
    cases e with
    | frameFire =>
      have hstep : loopStep s PageEvent.frameFire = s := by
        simp [loopStep, hp]
      rw [List.foldl_cons, hstep]
      exact ih hevs' s hp
    | becomeHidden =>
      rw [List.foldl_cons]
      exact ih hevs' _ rfl
    | becomeVisible =>
      exact absurd rfl (hevs PageEvent.becomeVisible (List.mem_cons_self _ _))

/-- C6: a visibilitychange event that hides the page cancels the pending
frame request; through any following events that do not include the page
becoming visible, no draw pass occurs and no frame request is issued; the
next becomeVisible event issues exactly one new frame request, leaving the
loop pending again. -/
theorem C6_visibility (s : LoopState) (evs : List PageEvent)
    (hevs : ∀ e ∈ evs, e ≠ PageEvent.becomeVisible) :
    (loopStep s PageEvent.becomeHidden).pending = false ∧
    (evs.foldl loopStep (loopStep s PageEvent.becomeHidden)).draws = s.draws ∧
    (evs.foldl loopStep (loopStep s PageEvent.becomeHidden)).reqs = s.reqs ∧
    (loopStep (evs.foldl loopStep (loopStep s PageEvent.becomeHidden))
        PageEvent.becomeVisible).pending = true ∧
    (loopStep (evs.foldl loopStep (loopStep s PageEvent.becomeHidden))
        PageEvent.becomeVisible).reqs = s.reqs + 1 := by
  obtain ⟨hp, hd, hr⟩ := loopRun_hidden evs hevs (loopStep s PageEvent.becomeHidden) rfl
  exact ⟨rfl, hd, hr, rfl, congrArg (fun x => x + 1) hr⟩

/-- C6 witness: hide from a pending loop, then a frame callback and a second
hide while hidden; counters are unchanged and the show step re-requests. -/
theorem C6_visibility_witness :
    (∀ e ∈ [PageEvent.frameFire, PageEvent.becomeHidden], e ≠ PageEvent.becomeVisible) ∧
    ([PageEvent.frameFire, PageEvent.becomeHidden].foldl loopStep
      (loopStep ⟨true, false, 7, 7⟩ PageEvent.becomeHidden)).draws = 7 :=
  ⟨by decide,
    (C6_visibility ⟨true, false, 7, 7⟩ [PageEvent.frameFire, PageEvent.becomeHidden]
      (by decide)).2.1⟩

/-- C7: with every random draw in `[0,1)` and a positive viewport, a freshly
reset particle has position in `[0, width) × [0, height)`, per-axis velocity
in `[-0.225, 0.225]`, radius in `[0.8, 2.6)`, and color factor in
`[0, 1)`. -/
theorem C7_creation (width height : ℚ) (hw : 0 < width) (hh : 0 < height)
    (u : Fin 6 → ℚ) (hu : ∀ i, 0 ≤ u i ∧ u i < 1) (initial : Bool) :
    (0 ≤ (Particle.reset width height u initial).x ∧
      (Particle.reset width height u initial).x < width) ∧
    (0 ≤ (Particle.reset width height u initial).y ∧
      (Particle.reset width height u initial).y < height) ∧
    (-0.225 ≤ (Particle.reset width height u initial).vx ∧
      (Particle.reset width height u initial).vx ≤ 0.225) ∧
    (-0.225 ≤ (Particle.reset width height u initial).vy ∧
      (Particle.reset width height u initial).vy ≤ 0.225) ∧
    (0.8 ≤ (Particle.reset width height u initial).r ∧
      (Particle.reset width height u initial).r < 2.6) ∧
    (0 ≤ (Particle.reset width height u initial).t ∧
      (Particle.reset width height u initial).t < 1) := by
  simp only [Particle.reset, ite_self]
  obtain ⟨h00, h01⟩ := hu 0
  obtain ⟨h10, h11⟩ := hu 1
  obtain ⟨h20, h21⟩ := hu 2
  obtain ⟨h30, h31⟩ := hu 3
  obtain ⟨h40, h41⟩ := hu 4
  obtain ⟨h50, h51⟩ := hu 5
  refine ⟨⟨mul_nonneg h00 (le_of_lt hw), ?_⟩,
    ⟨mul_nonneg h10 (le_of_lt hh), ?_⟩,
    ⟨by nlinarith, by nlinarith⟩, ⟨by nlinarith, by nlinarith⟩,
    ⟨by nlinarith, by nlinarith⟩, ⟨h50, h51⟩⟩
  · nlinarith [mul_pos (show (0:ℚ) < 1 - u 0 by linarith) hw]
  · nlinarith [mul_pos (show (0:ℚ) < 1 - u 1 by linarith) hh]

/-- C7 witness: the statement at width = height = 100, all draws 1/2. -/
theorem C7_creation_witness :
    (0:ℚ) < 100 ∧
    0 ≤ (Particle.reset 100 100 (fun _ => 1/2) false).x ∧
    (Particle.reset 100 100 (fun _ => 1/2) false).x < 100 :=
  ⟨by norm_num,
    (C7_creation 100 100 (by norm_num) (by norm_num) (fun _ => 1/2)
      (fun _ => by norm_num) false).1⟩

/-- C8: any number of move steps changes only the position: the velocity
components, the radius and the color factor of a particle are exactly those
it was created with. -/
theorem C8_move_fixed (width height : ℚ) (p : Particle) (n : ℕ) :
    ((Particle.move width height)^[n] p).vx = p.vx ∧
    ((Particle.move width height)^[n] p).vy = p.vy ∧
    ((Particle.move width height)^[n] p).r = p.r ∧
    ((Particle.move width height)^[n] p).t = p.t := by
  induction n with
  | zero => exact ⟨rfl, rfl, rfl, rfl⟩
  | succ m ih =>
    rw [Function.iterate_succ_apply']
    exact ⟨ih.1, ih.2.1, ih.2.2.1, ih.2.2.2⟩

/-- C8 witness: the color factor is intact after 5 move steps from a
concrete creation. -/
theorem C8_move_fixed_witness :
    ((Particle.move 100 100)^[5] (Particle.create 100 100 (fun _ => 1/2))).t =
      (Particle.create 100 100 (fun _ => 1/2)).t :=
  (C8_move_fixed 100 100 (Particle.create 100 100 (fun _ => 1/2)) 5).2.2.2

/-- C9: whenever the `.env` file is missing, or any of `S3_BUCKET`,
`AWS_REGION`, `CLOUDFRONT_DISTRIBUTION_ID` is unset (or empty), or the
`dist/` directory is missing or empty, the deploy run aborts with a
non-empty diagnostic message and does not reach the upload. -/
theorem C9_validation (e : DeployEnv)
    (h : e.envFileExists = false ∨ isSet e.s3Bucket = false ∨
      isSet e.awsRegion = false ∨ isSet e.cfDistributionId = false ∨
      e.distExists = false ∨ e.distNonempty = false) :
    deploy e ≠ DeployResult.uploaded ∧
    ∃ msg, deploy e = DeployResult.aborted msg ∧ msg ≠ "" := by
  have key : deploy e = DeployResult.uploaded ∨
      ∃ msg, deploy e = DeployResult.aborted msg ∧ msg ≠ "" := by
    unfold deploy
    split_ifs <;> first
      | exact Or.inl rfl
      | exact Or.inr ⟨_, rfl, by decide⟩
  have hne : deploy e ≠ DeployResult.uploaded := by
    intro hc
    unfold deploy at hc
    split_ifs at hc with g1 g2 g3 g4 g5
    simp only [Bool.not_eq_true', Bool.not_eq_false] at g1 g2 g3 g4 g5
    simp only [Bool.and_eq_true] at g5
    rcases h with h | h | h | h | h | h
    · rw [g1] at h; cases h
    · rw [g2] at h; cases h
    · rw [g3] at h; cases h
    · rw [g4] at h; cases h
    · rw [g5.1] at h; cases h
    · rw [g5.2] at h; cases h
  rcases key with k | k
  · exact absurd k hne
  · exact ⟨hne, k⟩

/-- C9 witness: a run with every configuration value present but `.env`
missing aborts before the upload. -/
theorem C9_validation_witness :
    deploy ⟨false, some "bucket", some "us-east-1", some "E123", true, true⟩ ≠
      DeployResult.uploaded :=
  (C9_validation ⟨false, some "bucket", some "us-east-1", some "E123", true, true⟩
    (Or.inl rfl)).1

/-- C10: the `initial` argument of `reset` is irrelevant — with the same
random draws, any two values of it produce identical particle state — so the
constructor call `reset(true)` coincides with a plain `reset()` (whose
default `initial` is `false`). -/
theorem C10_initial_irrelevant (width height : ℚ) (u : Fin 6 → ℚ) (b1 b2 : Bool) :
    Particle.reset width height u b1 = Particle.reset width height u b2 ∧
    Particle.create width height u = Particle.reset width height u false := by
  constructor
  · cases b1 <;> cases b2 <;> rfl
  · rfl

/-- C10 witness: the statement at a concrete viewport and draw sequence. -/
theorem C10_initial_irrelevant_witness :
    Particle.reset 100 100 (fun _ => 1/2) true = Particle.reset 100 100 (fun _ => 1/2) false :=
  (C10_initial_irrelevant 100 100 (fun _ => 1/2) true false).1

end Portfolio
